import Mathlib

/-!
# Verification of the ultimate-guitar-player terminal application

Shallow embedding of `src/main.rs`: the `App` session state, the event
loop body of `run_app`, the `parse_html` extraction component, and the
epilogue of `main`.  External capabilities (the HTTP transport, the
filesystem, the lenient HTML parser of the `scraper` crate) are modelled
as an explicit environment `Env` supplied to the step function; the
side effects the loop performs (fetch, file create, file write) are
recorded in an explicit effect trace.
-/

namespace UGP

/-! ## HTML document model

`scraper::Html::parse_document` produces a node tree; `select` iterates
the tree's nodes in document (pre)order and keeps the elements matched
by a selector.  We model documents as the parsed tree directly (the
HTML string-to-tree parse itself is the external crate's job and is
supplied by the environment, see `Env.htmlOf`). -/

/-- A node of a parsed HTML document: an element with tag name,
attribute list and children, or a text node. -/
inductive Node where
  | element (tag : String) (attrs : List (String × String)) (children : List Node)
  | text (s : String)

/-- Rendering of an attribute list inside a start tag. -/
def attrsString : List (String × String) → String
  | [] => ""
  | (k, v) :: rest => " " ++ k ++ "=\"" ++ v ++ "\"" ++ attrsString rest

mutual

/-- Serialization of a node back to HTML text (as the `scraper` crate's
serializer does for the documents we consider: no void elements, no
escaping needed). -/
def serialize : Node → String
  | .text s => s
  | .element tag attrs children =>
      "<" ++ tag ++ attrsString attrs ++ ">" ++ serializeList children ++ "</" ++ tag ++ ">"

/-- Serialization of a list of sibling nodes. -/
def serializeList : List Node → String
  | [] => ""
  | n :: ns => serialize n ++ serializeList ns

end

/-- `ElementRef::inner_html` of the `scraper` crate: the serialized
markup of the element's children. -/
def innerHtml : Node → String
  | .text s => s
  | .element _ _ children => serializeList children

mutual

/-- Modelled from the spec: "inner text" of a node, the concatenation of
all descendant text, used to compare the spec's wording against the
code's `inner_html`. -/
def innerText : Node → String
  | .text s => s
  | .element _ _ children => innerTextList children

/-- Inner text of a list of sibling nodes. -/
def innerTextList : List Node → String
  | [] => ""
  | n :: ns => innerText n ++ innerTextList ns

end

mutual

/-- All element nodes of a tree in document (depth-first pre-)order,
the root included. -/
def elements : Node → List Node
  | .text _ => []
  | .element tag attrs children =>
      .element tag attrs children :: elementsList children

/-- Elements of a forest of sibling trees, in document order. -/
def elementsList : List Node → List Node
  | [] => []
  | n :: ns => elements n ++ elementsList ns

end

/-- The CSS selectors the program uses: a bare tag name (`title`), a tag
with a required class (`span.yvpjZ`), and a tag with an exact attribute
value (`meta[name='og:site_name']`). -/
inductive Sel where
  | tag (name : String)
  | tagClass (name cls : String)
  | tagAttr (name attr val : String)

/-- Split a character list at every occurrence of a separator, keeping
empty pieces, accumulating the current piece in reverse. -/
def splitCharAux (sep : Char) : List Char → List Char → List String
  | [], acc => [String.mk acc.reverse]
  | c :: cs, acc =>
      if c = sep then String.mk acc.reverse :: splitCharAux sep cs []
      else splitCharAux sep cs (c :: acc)

/-- Whether an attribute list carries a given class (the `class`
attribute is a space-separated list of class names). -/
def hasClass (attrs : List (String × String)) (cls : String) : Bool :=
  match attrs.lookup "class" with
  | some s => (splitCharAux ' ' s.data []).contains cls
  | none => false

/-- Whether an element with the given tag and attributes matches a
selector. -/
def matchesSel (sel : Sel) (tag : String) (attrs : List (String × String)) : Bool :=
  match sel with
  | .tag t => tag == t
  | .tagClass t c => tag == t && hasClass attrs c
  | .tagAttr t a v => tag == t && (attrs.lookup a == some v)

/-- Whether a node is an element matching the selector (text nodes never
match). -/
def nodeMatches (sel : Sel) : Node → Bool
  | .text _ => false
  | .element tag attrs _ => matchesSel sel tag attrs

/-- `Html::select`: the elements of the document matching the selector,
in document order. -/
def select (doc : Node) (sel : Sel) : List Node :=
  (elements doc).filter (nodeMatches sel)

/-- The `content` attribute (or any named attribute) of an element. -/
def attrOf (n : Node) (key : String) : Option String :=
  match n with
  | .element _ attrs _ => attrs.lookup key
  | .text _ => none

/-! ## Extraction component (`parse_html`) -/

/-- A single extracted chord label (`struct Chord`). -/
structure Chord where
  name : String
  deriving Repr, DecidableEq

/-- The extraction result (`struct Song`). -/
structure Song where
  title : Option String
  artist : Option String
  chords : List Chord
  deriving Repr, DecidableEq

/-- `Selector::parse("title")`. -/
def title_selector : Sel := .tag "title"

/-- `Selector::parse("meta[name='og:site_name']")`. -/
def artist_selector : Sel := .tagAttr "meta" "name" "og:site_name"

/-- `Selector::parse("span.yvpjZ")`. -/
def chord_selector : Sel := .tagClass "span" "yvpjZ"

/-- `parse_html`, on the already parsed document tree: title is the
first `title` match's inner HTML, artist is the first artist-selector
match's `content` attribute, chords are all chord-selector matches'
inner HTML, in document order. -/
def parse_html (document : Node) : Song :=
  let title := (select document title_selector).head?.map innerHtml
  let artist := (select document artist_selector).head?.bind (fun a => attrOf a "content")
  let chords := (select document chord_selector).map (fun el => Chord.mk (innerHtml el))
  { title := title, artist := artist, chords := chords }

/-! ## Session state and input events -/

/-- The session state (`struct App`): `input_mode = true` is TextEntry,
`false` is Navigation. -/
structure App where
  input_mode : Bool
  url : String
  message : String
  song : Option Song
  deriving Repr, DecidableEq

/-- `App::new()`: Navigation mode, empty buffer, empty message, no song. -/
def App.new : App := { input_mode := false, url := "", message := "", song := none }

/-- The key identities the loop distinguishes (`crossterm KeyCode`). -/
inductive KeyCode where
  | enter
  | char (c : Char)
  | backspace
  | esc
  | otherKey
  deriving Repr, DecidableEq

/-- Key event kinds; only `press` is acted on. -/
inductive KeyEventKind where
  | press
  | release
  | rep
  deriving Repr, DecidableEq

/-- A key event: a key identity together with its kind. -/
structure KeyEvent where
  code : KeyCode
  kind : KeyEventKind
  deriving Repr, DecidableEq

/-- A terminal input event: key, bracketed paste, or anything else. -/
inductive Event where
  | key (k : KeyEvent)
  | paste (data : String)
  | otherEvent
  deriving Repr, DecidableEq

/-! ## External environment and effects -/

/-- An HTTP status as `reqwest` presents it: numeric code and optional
canonical reason; `Display` prints the code, then the reason if any. -/
structure HttpStatus where
  code : Nat
  reason : Option String
  deriving Repr, DecidableEq

/-- `StatusCode::is_success()`: code in 200..=299. -/
def HttpStatus.isSuccess (s : HttpStatus) : Bool :=
  200 ≤ s.code && s.code < 300

/-- `Display` of a status: the code, then a space and the canonical
reason when present. -/
def HttpStatus.display (s : HttpStatus) : String :=
  toString s.code ++ (match s.reason with
    | some r => " " ++ r
    | none => "")

/-- Outcome of `reqwest::blocking::get`: a transport error (carrying the
error's display text), or a response carrying the status and the result
of `resp.text()` (body text, or a body-read error's display text). -/
inductive FetchResult where
  | fetchErr (e : String)
  | response (status : HttpStatus) (text : Except String String)
  deriving Repr

/-- The external world the loop interacts with: the HTTP transport, the
filesystem's create/write outcomes for `fetched.html`, and the external
lenient HTML parser turning body text into a document tree. -/
structure Env where
  fetch : String → FetchResult
  createOk : Bool
  writeOk : Bool
  htmlOf : String → Node

/-- A recorded side effect of one loop iteration. -/
inductive Effect where
  | fetchUrl (url : String)
  | fileCreate (ok : Bool)
  | fileWrite (content : String) (ok : Bool)
  deriving Repr, DecidableEq

/-- Result of consuming one event: continue with a new state and the
effects performed, quit (the `q` command's early return), or a panic
(an `unwrap` on `None`). -/
inductive StepResult where
  | cont (app : App) (effs : List Effect)
  | quit
  | panicked
  deriving Repr, DecidableEq

/-! ## The loop body -/

/-- The `KeyCode::Enter` commit branch of `run_app`: fetch the buffer as
a URL, and on success write the body to `fetched.html` and extract; each
branch replaces the status message, and `input_mode` is set to `false`
afterwards in all branches.  The success branch re-reads `app.song`
with `unwrap` as the code does; an impossible `None` there is a panic. -/
def commitStep (env : Env) (app : App) : StepResult :=
  let url := app.url
  match env.fetch url with
  | .fetchErr e =>
      .cont { app with message := "Error fetching URL: " ++ e, input_mode := false }
        [.fetchUrl url]
  | .response status txt =>
      if status.isSuccess then
        match txt with
        | .ok text =>
            if env.createOk then
              if env.writeOk then
                let song := parse_html (env.htmlOf text)
                let app1 := { app with song := some song }
                match app1.song with
                | some s =>
                    .cont { app1 with
                              message := "Saved to fetched.html. Parsed " ++
                                toString s.chords.length ++ " chords for '" ++
                                s.title.getD "Unknown" ++ "' by " ++
                                s.artist.getD "Unknown",
                              input_mode := false }
                      [.fetchUrl url, .fileCreate true, .fileWrite text true]
                | none => .panicked
              else
                .cont { app with message := "Error writing to file", input_mode := false }
                  [.fetchUrl url, .fileCreate true, .fileWrite text false]
            else
              .cont { app with message := "Error creating file", input_mode := false }
                [.fetchUrl url, .fileCreate false]
        | .error e =>
            .cont { app with message := "Error reading response: " ++ e, input_mode := false }
              [.fetchUrl url]
      else
        .cont { app with message := "HTTP error: " ++ status.display, input_mode := false }
          [.fetchUrl url]

/-- One iteration of `run_app`'s event match: key events are acted on
only when of kind press; in TextEntry (`input_mode`) Enter commits,
characters append, Backspace pops, Esc leaves TextEntry; in Navigation
`q` quits and `u` enters TextEntry clearing buffer and message; paste
data is appended to the buffer in TextEntry. -/
def step (env : Env) (app : App) : Event → StepResult
  | .key k =>
      if k.kind = .press then
        if app.input_mode then
          match k.code with
          | .enter => commitStep env app
          | .char c => .cont { app with url := app.url.push c } []
          | .backspace => .cont { app with url := app.url.dropRight 1 } []
          | .esc => .cont { app with input_mode := false } []
          | .otherKey => .cont app []
        else
          match k.code with
          | .char c =>
              if c = 'q' then .quit
              else if c = 'u' then
                .cont { app with input_mode := true, url := "", message := "" } []
              else .cont app []
          | _ => .cont app []
      else .cont app []
  | .paste data =>
      if app.input_mode then .cont { app with url := app.url ++ data } []
      else .cont app []
  | .otherEvent => .cont app []

/-- Result of consuming a whole list of events, accumulating effects. -/
inductive RunResult where
  | cont (app : App) (effs : List Effect)
  | quit (effs : List Effect)
  | panicked (effs : List Effect)
  deriving Repr, DecidableEq

/-- Consume a list of events from a state, accumulating the effects
performed along the way. -/
def run (env : Env) : App → List Event → RunResult
  | app, [] => .cont app []
  | app, e :: es =>
      match step env app e with
      | .quit => .quit []
      | .panicked => .panicked []
      | .cont a effs =>
          match run env a es with
          | .cont a' effs' => .cont a' (effs ++ effs')
          | .quit effs' => .quit (effs ++ effs')
          | .panicked effs' => .panicked (effs ++ effs')

/-- A state is reachable when some event sequence, under some
environment, drives the freshly created session to it. -/
def Reachable (app : App) : Prop :=
  ∃ (env : Env) (evs : List Event) (effs : List Effect),
    run env App.new evs = RunResult.cont app effs

/-! ## The `main` epilogue

`main` sets the terminal up, runs the loop, restores the terminal
(each restore step propagating its own error with `?`), and then, when
the loop ended in an error, prints that error's debug rendering with
`println!` (standard output) and nevertheless returns `Ok(())`. -/

/-- Model of the `{:?}` rendering of the propagated error. -/
def debugFmt (e : String) : String := e

/-- `main` after the terminal setup succeeded: the standard-output lines
printed and the process exit code, as a function of the loop's result
and the terminal-restore result.  A failed restore propagates out of
`main` (exit code 1, nothing on standard output); otherwise a loop
error is printed and `main` returns `Ok(())` — exit code 0. -/
def mainEpilogue (restore : Except String Unit) (res : Except String Unit) :
    List String × Nat :=
  match restore with
  | .error _ => ([], 1)
  | .ok _ =>
      match res with
      | .error e => ([debugFmt e], 0)
      | .ok _ => ([], 0)

/-! ## Sample environments and documents used by witnesses -/

/-- An inert environment: every fetch fails; used where no commit event
occurs. -/
def envIdle : Env :=
  { fetch := fun _ => .fetchErr "offline"
    createOk := false
    writeOk := false
    htmlOf := fun _ => .text "" }

/-! ## Derived descriptions of the commit sequence -/

/-- The status message the commit sequence produces, as a function of
the environment and the committed URL alone (mirrors the branches of
`commitStep`; used to state that the message is replaced by a
description of the outcome, independent of the prior message). -/
def commitMessage (env : Env) (url : String) : String :=
  match env.fetch url with
  | .fetchErr e => "Error fetching URL: " ++ e
  | .response status txt =>
      if status.isSuccess then
        match txt with
        | .ok text =>
            if env.createOk then
              if env.writeOk then
                let song := parse_html (env.htmlOf text)
                "Saved to fetched.html. Parsed " ++ toString song.chords.length ++
                  " chords for '" ++ song.title.getD "Unknown" ++ "' by " ++
                  song.artist.getD "Unknown"
              else "Error writing to file"
            else "Error creating file"
        | .error e => "Error reading response: " ++ e
      else "HTTP error: " ++ status.display

/-- Whether the whole Fetch-Save-Extract sequence succeeds for a given
URL under a given environment. -/
def commitSucceeds (env : Env) (url : String) : Bool :=
  match env.fetch url with
  | .response st (.ok _) => st.isSuccess && env.createOk && env.writeOk
  | _ => false

/-- The response body text for a given URL (empty when the fetch does
not yield a readable body; only consulted on the success path). -/
def commitText (env : Env) (url : String) : String :=
  match env.fetch url with
  | .response _ (.ok t) => t
  | _ => ""

/-! ## Edit events in TextEntry mode -/

/-- The two buffer-editing key presses of TextEntry mode. -/
inductive EditKey where
  | ch (c : Char)
  | backspace
  deriving Repr, DecidableEq

/-- The effect of one edit key on the buffer: a character is pushed, a
Backspace drops the last character (`String::pop`). -/
def applyEdit (s : String) : EditKey → String
  | .ch c => s.push c
  | .backspace => s.dropRight 1

/-- The input event carrying an edit key. -/
def editEvent : EditKey → Event
  | .ch c => .key ⟨.char c, .press⟩
  | .backspace => .key ⟨.backspace, .press⟩

/-! ## Concrete documents, bodies and environments -/

/-- The parsed tree of
`<html><title>T</title><span class="yvpjZ">Am</span></html>` (the
lenient parser wraps the title in a `head` and the span in a `body`). -/
def docOK : Node :=
  .element "html" []
    [.element "head" [] [.element "title" [] [.text "T"]],
     .element "body" [] [.element "span" [("class", "yvpjZ")] [.text "Am"]]]

/-- The parsed tree of
`<html><title>T</title><span class="chord-class">Am</span></html>`. -/
def docCC : Node :=
  .element "html" []
    [.element "head" [] [.element "title" [] [.text "T"]],
     .element "body" [] [.element "span" [("class", "chord-class")] [.text "Am"]]]

/-- A document whose chord-selector match has nested markup inside. -/
def docNested : Node :=
  .element "html" []
    [.element "body" []
      [.element "span" [("class", "yvpjZ")] [.element "b" [] [.text "A"], .text "m"]]]

/-- A document with no `title` element at all. -/
def docNoTitle : Node :=
  .element "html" [] [.element "body" [] [.text "hello"]]

/-- The response body of the spec's success scenario, verbatim. -/
def bodyCC : String :=
  "<html><title>T</title><span class=\"chord-class\">Am</span></html>"

/-- The same body with the class the code's chord selector requires. -/
def bodyOK : String :=
  "<html><title>T</title><span class=\"yvpjZ\">Am</span></html>"

/-- Environment of the spec's success scenario: HTTP 200 with body
`bodyCC`, filesystem fine, parser yielding `docCC`. -/
def envCC : Env :=
  { fetch := fun _ => .response ⟨200, some "OK"⟩ (.ok bodyCC)
    createOk := true
    writeOk := true
    htmlOf := fun _ => docCC }

/-- Environment returning HTTP 200 with body `bodyOK` and parser
yielding `docOK`. -/
def envOK : Env :=
  { fetch := fun _ => .response ⟨200, some "OK"⟩ (.ok bodyOK)
    createOk := true
    writeOk := true
    htmlOf := fun _ => docOK }

/-- Environment returning HTTP 404 on every fetch. -/
def env404 : Env :=
  { fetch := fun _ => .response ⟨404, some "Not Found"⟩ (.error "no body")
    createOk := true
    writeOk := true
    htmlOf := fun _ => .text "" }

/-! ## Helper lemmas -/

/-- Editing key presses in TextEntry fold over the buffer and touch
nothing else, performing no effects. -/
theorem run_edit_fold (env : Env) :
    ∀ (edits : List EditKey) (app : App), app.input_mode = true →
      run env app (edits.map editEvent) =
        .cont { app with url := edits.foldl applyEdit app.url } [] := by
  intro edits
  induction edits with
  | nil => intro app h; simp [run]
  | cons e es ih =>
      intro app h
      cases e with
      | ch c =>
          have h2 := ih { app with input_mode := true, url := app.url.push c } rfl
          simp [run, step, editEvent, h, h2, applyEdit]
      | backspace =>
          have h2 := ih { app with input_mode := true, url := app.url.dropRight 1 } rfl
          simp [run, step, editEvent, h, h2, applyEdit]

/-! ## The claims -/

/-- C1: while the session is in TextEntry mode, any sequence of
printable-character and Backspace key presses leaves the session in
TextEntry with the buffer equal to the left-to-right fold of the edits
over the initial buffer (characters append, Backspace removes the last
character), with no effects performed and message and song untouched;
in particular Backspace on an empty buffer leaves the whole session
state unchanged and raises no error. -/
theorem c1_textentry_edit_fold (env : Env) (app : App) (edits : List EditKey)
    (h : app.input_mode = true) :
    run env app (edits.map editEvent) =
      .cont { app with url := edits.foldl applyEdit app.url } [] ∧
    (app.url = "" → step env app (editEvent EditKey.backspace) = .cont app []) := by
  refine ⟨run_edit_fold env edits app h, fun h0 => ?_⟩
  cases app with
  | mk im u m s =>
      simp only at h h0
      subst h h0
      rfl

/-- Witness for C1 at a concrete input: from TextEntry with an empty
buffer, typing `a` then Backspace returns to the same state, and a
Backspace alone is a no-op. -/
theorem c1_witness :
    run envIdle ⟨true, "", "m", none⟩
        ([EditKey.ch 'a', EditKey.backspace].map editEvent) =
      .cont ⟨true, "", "m", none⟩ [] ∧
    ((⟨true, "", "m", none⟩ : App).url = "" →
      step envIdle ⟨true, "", "m", none⟩ (editEvent EditKey.backspace) =
        .cont ⟨true, "", "m", none⟩ []) :=
  c1_textentry_edit_fold envIdle ⟨true, "", "m", none⟩ [EditKey.ch 'a', EditKey.backspace] rfl

/-- C8: in Navigation mode, the `u` key press always yields TextEntry
with an empty buffer and an empty status message, whatever the prior
buffer and message were, and performs no effects. -/
theorem c8_enter_textentry_clears (env : Env) (app : App) (h : app.input_mode = false) :
    step env app (.key ⟨.char 'u', .press⟩) =
      .cont { app with input_mode := true, url := "", message := "" } [] := by
  simp [step, h]

/-- Witness for C8 at a concrete input with a non-empty prior buffer
and message. -/
theorem c8_witness :
    step envIdle ⟨false, "old-url", "old message", none⟩ (.key ⟨.char 'u', .press⟩) =
      .cont ⟨true, "", "", none⟩ [] :=
  c8_enter_textentry_clears envIdle ⟨false, "old-url", "old message", none⟩ rfl

/-- C9: in TextEntry mode, the Escape key press returns to Navigation
leaving the buffer, the status message and the retained song exactly as
they were, and performs no fetch, file write or any other effect. -/
theorem c9_cancel_pure (env : Env) (app : App) (h : app.input_mode = true) :
    step env app (.key ⟨.esc, .press⟩) = .cont { app with input_mode := false } [] := by
  simp [step, h]

/-- Witness for C9 at a concrete input with a non-empty buffer and
message. -/
theorem c9_witness :
    step envIdle ⟨true, "http://kept", "kept message", none⟩ (.key ⟨.esc, .press⟩) =
      .cont ⟨false, "http://kept", "kept message", none⟩ [] :=
  c9_cancel_pure envIdle ⟨true, "http://kept", "kept message", none⟩ rfl

/-- C5: a commit issued in TextEntry never quits and never panics:
whatever branch of the Fetch-Save-Extract sequence resolves, the
session is afterwards in Navigation mode and the status message is
replaced by the branch's outcome description, a function of the
environment and the committed URL alone. -/
theorem c5_commit_returns_to_navigation (env : Env) (app : App) (h : app.input_mode = true) :
    ∃ app' effs, step env app (.key ⟨.enter, .press⟩) = .cont app' effs ∧
      app'.input_mode = false ∧ app'.message = commitMessage env app.url := by
  have hstep : step env app (.key ⟨.enter, .press⟩) = commitStep env app := by
    simp [step, h]
  rw [hstep]
  cases hf : env.fetch app.url with
  | fetchErr e =>
      refine ⟨{ app with message := "Error fetching URL: " ++ e, input_mode := false },
        [.fetchUrl app.url], ?_, rfl, ?_⟩ <;> simp [commitStep, commitMessage, hf]
  | response st txt =>
      cases hs : st.isSuccess with
      | false =>
          refine ⟨{ app with message := "HTTP error: " ++ st.display, input_mode := false },
            [.fetchUrl app.url], ?_, rfl, ?_⟩ <;> simp [commitStep, commitMessage, hf, hs]
      | true =>
          cases txt with
          | error e =>
              refine ⟨{ app with message := "Error reading response: " ++ e, input_mode := false },
                [.fetchUrl app.url], ?_, rfl, ?_⟩ <;>
                simp [commitStep, commitMessage, hf, hs]
          | ok text =>
              cases hc : env.createOk with
              | false =>
                  refine ⟨{ app with message := "Error creating file", input_mode := false },
                    [.fetchUrl app.url, .fileCreate false], ?_, rfl, ?_⟩ <;>
                    simp [commitStep, commitMessage, hf, hs, hc]
              | true =>
                  cases hw : env.writeOk with
                  | false =>
                      refine ⟨{ app with message := "Error writing to file", input_mode := false },
                        [.fetchUrl app.url, .fileCreate true, .fileWrite text false],
                        ?_, rfl, ?_⟩ <;>
                        simp [commitStep, commitMessage, hf, hs, hc, hw]
                  | true =>
                      refine ⟨{ app with
                                  message := commitMessage env app.url,
                                  song := some (parse_html (env.htmlOf text)),
                                  input_mode := false },
                        [.fetchUrl app.url, .fileCreate true, .fileWrite text true],
                        ?_, rfl, rfl⟩
                      simp [commitStep, commitMessage, hf, hs, hc, hw]

/-- Witness for C5 at a concrete input (a failing transport). -/
theorem c5_witness :
    ∃ app' effs, step envIdle ⟨true, "http://x", "old", none⟩ (.key ⟨.enter, .press⟩) =
        .cont app' effs ∧
      app'.input_mode = false ∧ app'.message = commitMessage envIdle "http://x" :=
  c5_commit_returns_to_navigation envIdle ⟨true, "http://x", "old", none⟩ rfl

/-- C6: a commit whose response carries a non-success HTTP status
returns to Navigation with the status message `HTTP error: `
followed by the status display (which contains the numeric status
code), and the only effect performed is the fetch itself: no file is
created and nothing is written. -/
theorem c6_http_error_no_write (env : Env) (app : App) (st : HttpStatus)
    (txt : Except String String) (h : app.input_mode = true)
    (hf : env.fetch app.url = .response st txt) (hs : st.isSuccess = false) :
    step env app (.key ⟨.enter, .press⟩) =
      .cont { app with message := "HTTP error: " ++ st.display, input_mode := false }
        [.fetchUrl app.url] ∧
    ∃ p q, "HTTP error: " ++ st.display = p ++ toString st.code ++ q := by
  constructor
  · simp [step, h, commitStep, hf, hs]
  · refine ⟨"HTTP error: ", (match st.reason with | some r => " " ++ r | none => ""), ?_⟩
    rw [String.append_assoc]
    rfl

/-- Witness for C6 at a concrete 404 response. -/
theorem c6_witness :
    step env404 ⟨true, "http://x", "", none⟩ (.key ⟨.enter, .press⟩) =
      .cont ⟨false, "http://x", "HTTP error: 404 Not Found", none⟩
        [.fetchUrl "http://x"] ∧
    ∃ p q, ("HTTP error: 404 Not Found" : String) = p ++ toString (404 : Nat) ++ q :=
  c6_http_error_no_write env404 ⟨true, "http://x", "", none⟩ ⟨404, some "Not Found"⟩
    (.error "no body") rfl rfl rfl

/-- C10: the retained song field survives every failing branch of the
commit sequence unchanged, and is replaced, exactly on the fully
successful branch, by the fresh extraction result of the fetched
body. -/
theorem c10_song_frame (env : Env) (app : App) (h : app.input_mode = true) :
    ∃ app' effs, step env app (.key ⟨.enter, .press⟩) = .cont app' effs ∧
      app'.song = (if commitSucceeds env app.url then
                     some (parse_html (env.htmlOf (commitText env app.url)))
                   else app.song) := by
  have hstep : step env app (.key ⟨.enter, .press⟩) = commitStep env app := by
    simp [step, h]
  rw [hstep]
  cases hf : env.fetch app.url with
  | fetchErr e =>
      refine ⟨{ app with message := "Error fetching URL: " ++ e, input_mode := false },
        [.fetchUrl app.url], ?_, ?_⟩ <;> simp [commitStep, commitSucceeds, hf]
  | response st txt =>
      cases hs : st.isSuccess with
      | false =>
          refine ⟨{ app with message := "HTTP error: " ++ st.display, input_mode := false },
            [.fetchUrl app.url], ?_, ?_⟩ <;> cases txt <;>
            simp [commitStep, commitSucceeds, hf, hs]
      | true =>
          cases txt with
          | error e =>
              refine ⟨{ app with message := "Error reading response: " ++ e, input_mode := false },
                [.fetchUrl app.url], ?_, ?_⟩ <;> simp [commitStep, commitSucceeds, hf, hs]
          | ok text =>
              cases hc : env.createOk with
              | false =>
                  refine ⟨{ app with message := "Error creating file", input_mode := false },
                    [.fetchUrl app.url, .fileCreate false], ?_, ?_⟩ <;>
                    simp [commitStep, commitSucceeds, hf, hs, hc]
              | true =>
                  cases hw : env.writeOk with
                  | false =>
                      refine ⟨{ app with message := "Error writing to file", input_mode := false },
                        [.fetchUrl app.url, .fileCreate true, .fileWrite text false], ?_, ?_⟩ <;>
                        simp [commitStep, commitSucceeds, hf, hs, hc, hw]
                  | true =>
                      refine ⟨{ app with
                                  message := commitMessage env app.url,
                                  song := some (parse_html (env.htmlOf text)),
                                  input_mode := false },
                        [.fetchUrl app.url, .fileCreate true, .fileWrite text true], ?_, ?_⟩ <;>
                        simp [commitStep, commitMessage, commitSucceeds, commitText, hf, hs, hc, hw]

/-- Witness for C10 at a concrete input: a failing transport leaves the
previously retained song in place. -/
theorem c10_witness :
    ∃ app' effs,
      step envIdle ⟨true, "http://x", "", some ⟨some "Old", none, []⟩⟩
          (.key ⟨.enter, .press⟩) = .cont app' effs ∧
      app'.song = (if commitSucceeds envIdle "http://x" then
                     some (parse_html (envIdle.htmlOf (commitText envIdle "http://x")))
                   else some ⟨some "Old", none, []⟩) :=
  c10_song_frame envIdle ⟨true, "http://x", "", some ⟨some "Old", none, []⟩⟩ rfl

/-- C2, counterexample to the claim as stated: committing against a
transport that returns HTTP 200 with the spec's body (whose span has
class `chord-class`) does write that body, but the extraction finds 0
chords — the chord selector requires class `yvpjZ` — so the status
message reports 0 chords, not 1. -/
theorem c2_counterexample :
    step envCC ⟨true, "http://x", "", none⟩ (.key ⟨.enter, .press⟩) =
      .cont ⟨false, "http://x",
             "Saved to fetched.html. Parsed 0 chords for 'T' by Unknown",
             some (parse_html docCC)⟩
        [.fetchUrl "http://x", .fileCreate true, .fileWrite bodyCC true] ∧
    (parse_html docCC).chords.length = 0 ∧
    "Saved to fetched.html. Parsed 0 chords for 'T' by Unknown" ≠
      "Saved to fetched.html. Parsed 1 chords for 'T' by Unknown" :=
  ⟨rfl, rfl, by decide⟩

/-- C2 (amended): for a commit whose transport returns HTTP 200 with
body `<html><title>T</title><span class="yvpjZ">Am</span></html>`, the
program writes a file whose content is exactly that body and sets a
status message reporting 1 chord and title `T`. -/
theorem c2_amended_commit_success (env : Env) (app : App) (st : HttpStatus)
    (h : app.input_mode = true)
    (hf : env.fetch app.url = .response st (.ok bodyOK))
    (hs : st.isSuccess = true)
    (hc : env.createOk = true) (hw : env.writeOk = true)
    (hp : env.htmlOf bodyOK = docOK) :
    step env app (.key ⟨.enter, .press⟩) =
      .cont { app with
                input_mode := false,
                message := "Saved to fetched.html. Parsed 1 chords for 'T' by Unknown",
                song := some (parse_html docOK) }
        [.fetchUrl app.url, .fileCreate true, .fileWrite bodyOK true] := by
  simp [step, h, commitStep, hf, hs, hc, hw, hp]
  rfl

/-- Witness for C2 at a concrete environment and session. -/
theorem c2_witness :
    step envOK ⟨true, "http://x", "", none⟩ (.key ⟨.enter, .press⟩) =
      .cont ⟨false, "http://x",
             "Saved to fetched.html. Parsed 1 chords for 'T' by Unknown",
             some (parse_html docOK)⟩
        [.fetchUrl "http://x", .fileCreate true, .fileWrite bodyOK true] :=
  c2_amended_commit_success envOK ⟨true, "http://x", "", none⟩ ⟨200, some "OK"⟩
    rfl rfl rfl rfl rfl rfl

/-- C3, counterexample to the claim as stated: when the loop ends in a
propagated fatal error and the terminal restore succeeds, the process
prints the diagnostic to standard output but exits with code 0, not a
non-zero code. -/
theorem c3_counterexample :
    mainEpilogue (.ok ()) (.error "event read failed") = (["event read failed"], 0) ∧
    (mainEpilogue (.ok ()) (.error "event read failed")).2 = 0 :=
  ⟨rfl, rfl⟩

/-- C3 (amended): if the interaction loop terminates via a propagated
fatal terminal error and the terminal restore succeeds, the process
prints a diagnostic to standard output and exits with status 0 — the
same exit status as termination via the quit command, which prints
nothing. -/
theorem c3_amended_exit_codes :
    (∀ e : String, mainEpilogue (.ok ()) (.error e) = ([debugFmt e], 0)) ∧
    mainEpilogue (.ok ()) (.ok ()) = ([], 0) :=
  ⟨fun _ => rfl, rfl⟩

/-- C4, counterexample to the claim as stated: the session reached by
pressing `u`, typing `a` and pressing Escape is in Navigation mode with
a non-empty buffer, so the buffer is not non-empty only in TextEntry. -/
theorem c4_counterexample :
    ¬ (∀ app : App, Reachable app → app.url ≠ "" → app.input_mode = true) := by
  intro hall
  have hr : Reachable ⟨false, "a", "", none⟩ :=
    ⟨envIdle,
     [.key ⟨.char 'u', .press⟩, .key ⟨.char 'a', .press⟩, .key ⟨.esc, .press⟩],
     [], rfl⟩
  have hbad := hall ⟨false, "a", "", none⟩ hr (by decide)
  exact absurd hbad (by decide)

/-- C4 (amended): every transition that (re)enters TextEntry mode
clears the buffer (and the status message); the buffer may however
remain non-empty while in Navigation mode, after Escape or a commit. -/
theorem c4_amended_entry_clears (env : Env) (app app' : App) (ev : Event)
    (effs : List Effect) (hstep : step env app ev = .cont app' effs)
    (h1 : app.input_mode = false) (h2 : app'.input_mode = true) :
    app'.url = "" ∧ app'.message = "" := by
  cases ev with
  | key k =>
      by_cases hk : k.kind = KeyEventKind.press
      · cases hcode : k.code with
        | char c =>
            by_cases hq : c = 'q'
            · simp [step, hk, h1, hcode, hq] at hstep
            · by_cases hu : c = 'u'
              · simp [step, hk, h1, hcode, hq, hu] at hstep
                obtain ⟨ha, _⟩ := hstep
                rw [← ha]
                exact ⟨rfl, rfl⟩
              · simp [step, hk, h1, hcode, hq, hu] at hstep
                obtain ⟨ha, _⟩ := hstep
                rw [← ha] at h2
                exact absurd h2 (by simp [h1])
        | enter =>
            simp [step, hk, h1, hcode] at hstep
            obtain ⟨ha, _⟩ := hstep
            rw [← ha] at h2
            exact absurd h2 (by simp [h1])
        | backspace =>
            simp [step, hk, h1, hcode] at hstep
            obtain ⟨ha, _⟩ := hstep
            rw [← ha] at h2
            exact absurd h2 (by simp [h1])
        | esc =>
            simp [step, hk, h1, hcode] at hstep
            obtain ⟨ha, _⟩ := hstep
            rw [← ha] at h2
            exact absurd h2 (by simp [h1])
        | otherKey =>
            simp [step, hk, h1, hcode] at hstep
            obtain ⟨ha, _⟩ := hstep
            rw [← ha] at h2
            exact absurd h2 (by simp [h1])
      · simp [step, hk] at hstep
        obtain ⟨ha, _⟩ := hstep
        rw [← ha] at h2
        exact absurd h2 (by simp [h1])
  | paste data =>
      simp [step, h1] at hstep
      obtain ⟨ha, _⟩ := hstep
      rw [← ha] at h2
      exact absurd h2 (by simp [h1])
  | otherEvent =>
      simp [step] at hstep
      obtain ⟨ha, _⟩ := hstep
      rw [← ha] at h2
      exact absurd h2 (by simp [h1])

/-- Witness for C4 at a concrete input: pressing `u` from Navigation
with a stale buffer and message yields an empty buffer and message. -/
theorem c4_witness :
    ((⟨true, "", "", none⟩ : App).url = "") ∧ ((⟨true, "", "", none⟩ : App).message = "") :=
  c4_amended_entry_clears envIdle ⟨false, "stale", "old", none⟩ ⟨true, "", "", none⟩
    (.key ⟨.char 'u', .press⟩) [] rfl rfl rfl

/-- C7, counterexample to the claim as stated: on a document whose
matching span contains nested markup, the extracted chord token is the
element's inner HTML (`<b>A</b>m`), not its inner text (`Am`), so
"as their inner text" does not describe the code. -/
theorem c7_counterexample :
    (parse_html docNested).chords.map Chord.name = ["<b>A</b>m"] ∧
    (select docNested chord_selector).map innerText = ["Am"] ∧
    (parse_html docNested).chords.map Chord.name ≠
      (select docNested chord_selector).map innerText := by
  refine ⟨rfl, rfl, ?_⟩
  intro hcontra
  rw [show (parse_html docNested).chords.map Chord.name = ["<b>A</b>m"] from rfl,
      show (select docNested chord_selector).map innerText = ["Am"] from rfl] at hcontra
  exact absurd (List.head_eq_of_cons_eq hcontra) (by decide)

/-- C7 (amended): for every document, extraction returns the chord
tokens of all elements matching the chord selector, as their inner
HTML (equal to the inner text only when the matched element has no
nested markup), in document order, with length exactly the number of
matches; and a document with no element matching the title selector
yields an absent title rather than an error or crash. -/
theorem c7_amended_extraction (doc : Node) :
    (parse_html doc).chords.map Chord.name = (select doc chord_selector).map innerHtml ∧
    (parse_html doc).chords.length = (elements doc).countP (nodeMatches chord_selector) ∧
    List.Sublist (select doc chord_selector) (elements doc) ∧
    (select doc title_selector = [] → (parse_html doc).title = none) := by
  refine ⟨?_, ?_, ?_, ?_⟩
  · simp [parse_html]
  · simp [parse_html, select, List.countP_eq_length_filter]
  · exact List.filter_sublist (elements doc)
  · intro h0
    simp [parse_html, h0]

/-- Witness for C7 at concrete documents: one chord with nested markup
kept in document order, and a document without a title element giving
an absent title. -/
theorem c7_witness :
    (parse_html docNoTitle).chords.map Chord.name =
      (select docNoTitle chord_selector).map innerHtml ∧
    (parse_html docNoTitle).title = none :=
  ⟨(c7_amended_extraction docNoTitle).1,
   (c7_amended_extraction docNoTitle).2.2.2 rfl⟩

end UGP
